import Mathlib

/-!
Verification of the GraphQL schema-introspection scripts
`src/graphql_schema.py` and `src/graphql_schema2.py`.

Each script sends one introspection query to a fixed endpoint as an HTTP
POST with a JSON body, parses the HTTP response body as JSON, aborts when
the parsed response carries an `errors` key, converts the `data` payload
to SDL text through the external `print_schema` routine, and writes that
text to `schema.graphql`.

The embedding models:
  * JSON values (`Json`) and the Python operations the scripts apply to
    them: the membership test `k in v` (`pyIn`) and subscription `v[k]`
    (`pyGetItem`), with their failure modes (`KeyError`, `TypeError`);
  * the network as an oracle: the endpoint's `HttpResponse` (status code
    and raw body) is an input to the run, and the requests the script
    sends are collected in a trace of `HttpRequest` values;
  * JSON deserialization (`response.json()`) as a parameter
    `parse : String → Option Json` (`none` models a body that is not
    valid JSON, which raises a decode error);
  * the external SDL printer `print_schema` as a parameter
    `Json → String` (the spec's SchemaCodec collaborator, out of scope);
  * the file system as a map `String → Option String` from path to
    content, and the `with open(path, 'w')` block by `save_schema`,
    whose `WriteBehavior` oracle says whether the write succeeds or
    fails after `k` characters; the scoped acquisition always releases
    the handle, recorded in `SaveResult.released`.
-/

/-- A JSON value, as produced by deserializing an HTTP response body. -/
inductive Json : Type where
  | null : Json
  | bool : Bool → Json
  | num : Int → Json
  | str : String → Json
  | arr : List Json → Json
  | obj : List (String × Json) → Json

/-- Errors a run can raise: `decodeError` models the JSON decode failure
raised by `response.json()` on a body that is not valid JSON;
`exceptionErrors v` models `raise Exception(response_json['errors'])`
carrying the value `v` of the `errors` field verbatim; `keyError k`
models Python's `KeyError` on a missing dictionary key `k`; `typeError`
models Python's `TypeError` on `in`/subscription applied to a value of
the wrong type; `ioError` models a file-write failure. -/
inductive PyError : Type where
  | decodeError : PyError
  | exceptionErrors : Json → PyError
  | keyError : String → PyError
  | typeError : PyError
  | ioError : PyError

/-- First value bound to key `k` in a JSON object's field list (Python
dictionary lookup; a dictionary produced by JSON parsing has distinct
keys, so first-match agrees with it). -/
def lookupField (fields : List (String × Json)) (k : String) : Option Json :=
  match fields with
  | [] => none
  | (k', v) :: rest => if k' = k then some v else lookupField rest k

/-- Bool test: is `needle` a prefix of `hay`? (helper for the Python
substring test on strings). -/
def charListIsPrefix (needle hay : List Char) : Bool :=
  match needle, hay with
  | [], _ => true
  | _ :: _, [] => false
  | a :: as', b :: bs => a == b && charListIsPrefix as' bs

/-- Bool test: does `needle` occur contiguously inside `hay`? (Python's
`sub in s` substring test). -/
def charListIsSub (needle hay : List Char) : Bool :=
  match hay with
  | [] => needle.isEmpty
  | b :: bs => charListIsPrefix needle (b :: bs) || charListIsSub needle bs

/-- Python's membership test `k in j` for a string `k`: key membership on
a dictionary, element equality on a list (a string compares equal only to
an equal string), substring test on a string, and `TypeError` on the
remaining JSON values (`None`, booleans, numbers are not containers). -/
def pyIn (k : String) (j : Json) : Except PyError Bool :=
  match j with
  | .obj fields => .ok (lookupField fields k).isSome
  | .arr xs => .ok (xs.any fun x => match x with | .str s => s == k | _ => false)
  | .str s => .ok (charListIsSub k.data s.data)
  | _ => .error .typeError

/-- Python's subscription `j[k]` for a string key `k`: dictionary lookup
raising `KeyError k` when the key is absent, and `TypeError` on any
non-dictionary value (lists and strings take integer indices). -/
def pyGetItem (j : Json) (k : String) : Except PyError Json :=
  match j with
  | .obj fields =>
    match lookupField fields k with
    | some v => .ok v
    | none => .error (.keyError k)
  | _ => .error .typeError

/-- An HTTP request as issued by `requests.post(url, json=body)`. -/
structure HttpRequest : Type where
  method : String
  url : String
  jsonBody : Json

/-- The endpoint's HTTP response: transport status code and raw body. -/
structure HttpResponse : Type where
  status_code : Nat
  body : String

/-- Oracle for the outcome of the file write inside `save_schema`:
either the write succeeds, or it fails after writing `k` characters. -/
inductive WriteBehavior : Type where
  | ok : WriteBehavior
  | failAfter : Nat → WriteBehavior

/-- Outcome of `save_schema`: the result (unit or raised error), the file
system afterwards, and whether the file handle was released. -/
structure SaveResult : Type where
  res : Except PyError Unit
  fs : String → Option String
  released : Bool

/-- Outcome of a whole run of `main`: the trace of HTTP requests sent,
the result (unit or raised error), the file system afterwards, and the
lines printed to standard output. -/
structure RunResult : Type where
  requests : List HttpRequest
  res : Except PyError Unit
  fs : String → Option String
  output : List String

namespace GraphqlSchema

/-- Modelled from the spec: `src/graphql_schema.py` line 4 imports
`introspection_query` from the external `graphql` library
(graphql-core-next); the text of that constant is not part of this
repository's sources. Per the spec (section 3), it is a fixed GraphQL
document requesting the full schema shape — root operation type names,
all types, each type's fields/arguments/interfaces/enum
values/possible types, with type references recursively unwrapped to a
fixed nesting depth — modelled here as the canonical introspection
document of the GraphQL reference implementation. Only two facts about
it are used: it is a fixed string, and it is not the string literal
defined locally in `src/graphql_schema2.py` (the two differ in shape
and indentation on any rendition: this one has no leading newline and
includes a `directives` selection, which the local literal lacks). -/
def introspection_query : String :=
  String.intercalate "\n"
    [ "query IntrospectionQuery \x7b"
    , "  __schema \x7b"
    , "    queryType \x7b name \x7d"
    , "    mutationType \x7b name \x7d"
    , "    subscriptionType \x7b name \x7d"
    , "    types \x7b"
    , "      ...FullType"
    , "    \x7d"
    , "    directives \x7b"
    , "      name"
    , "      description"
    , "      locations"
    , "      args \x7b"
    , "        ...InputValue"
    , "      \x7d"
    , "    \x7d"
    , "  \x7d"
    , "\x7d"
    , ""
    , "fragment FullType on __Type \x7b"
    , "  kind"
    , "  name"
    , "  description"
    , "  fields(includeDeprecated: true) \x7b"
    , "    name"
    , "    description"
    , "    args \x7b"
    , "      ...InputValue"
    , "    \x7d"
    , "    type \x7b"
    , "      ...TypeRef"
    , "    \x7d"
    , "    isDeprecated"
    , "    deprecationReason"
    , "  \x7d"
    , "  inputFields \x7b"
    , "    ...InputValue"
    , "  \x7d"
    , "  interfaces \x7b"
    , "    ...TypeRef"
    , "  \x7d"
    , "  enumValues(includeDeprecated: true) \x7b"
    , "    name"
    , "    description"
    , "    isDeprecated"
    , "    deprecationReason"
    , "  \x7d"
    , "  possibleTypes \x7b"
    , "    ...TypeRef"
    , "  \x7d"
    , "\x7d"
    , ""
    , "fragment InputValue on __InputValue \x7b"
    , "  name"
    , "  description"
    , "  type \x7b ...TypeRef \x7d"
    , "  defaultValue"
    , "\x7d"
    , ""
    , "fragment TypeRef on __Type \x7b"
    , "  kind"
    , "  name"
    , "  ofType \x7b"
    , "    kind"
    , "    name"
    , "    ofType \x7b"
    , "      kind"
    , "      name"
    , "      ofType \x7b"
    , "        kind"
    , "        name"
    , "      \x7d"
    , "    \x7d"
    , "  \x7d"
    , "\x7d"
    , "" ]

/-- The GraphQL endpoint URL, `src/graphql_schema.py` line 7. -/
def endpoint_url : String := "https://your-graphql-endpoint.com/graphql"

/-- `fetch_schema`, `src/graphql_schema.py` lines 9-19.  Sends one POST
request with JSON body `{'query': introspection_query}` (the request is
recorded in the returned trace), deserializes the response body as JSON
(`parse`), raises on an `errors` key, and otherwise returns the value of
the `data` key. -/
def fetch_schema (parse : String → Option Json) (endpoint_url : String)
    (response : HttpResponse) : List HttpRequest × Except PyError Json :=
  (([⟨"POST", endpoint_url, Json.obj [("query", Json.str introspection_query)]⟩] :
      List HttpRequest),
   match parse response.body with
   | none => .error .decodeError
   | some response_json =>
     match pyIn "errors" response_json with
     | .error e => .error e
     | .ok true =>
       match pyGetItem response_json "errors" with
       | .error e => .error e
       | .ok errs => .error (.exceptionErrors errs)
     | .ok false => pyGetItem response_json "data")

/-- `save_schema`, `src/graphql_schema.py` lines 21-24.  Opens
`file_path` for writing (truncating), writes `schema_json`; the
`with` block releases the handle on every exit path.  On a write that
fails after `k` characters the file holds the written prefix and an
I/O error is raised. -/
def save_schema (wb : WriteBehavior) (schema_json : String)
    (file_path : String) (fs : String → Option String) : SaveResult :=
  match wb with
  | .ok =>
    ⟨.ok (), fun p => if p = file_path then some schema_json else fs p, true⟩
  | .failAfter k =>
    ⟨.error .ioError,
     fun p => if p = file_path then some (schema_json.take k) else fs p, true⟩

/-- `main`, `src/graphql_schema.py` lines 26-36.  Fetches the schema,
converts it to SDL via the external `print_schema`, saves it to
`schema.graphql`, and prints a confirmation; any raised error aborts the
run at that point. -/
def main (parse : String → Option Json) (print_schema : Json → String)
    (wb : WriteBehavior) (response : HttpResponse)
    (fs : String → Option String) : RunResult :=
  let fetched := fetch_schema parse endpoint_url response
  match fetched.2 with
  | .error e => ⟨fetched.1, .error e, fs, []⟩
  | .ok schema_data =>
    let schema_json := print_schema schema_data
    let saved := save_schema wb schema_json "schema.graphql" fs
    match saved.res with
    | .error e => ⟨fetched.1, .error e, saved.fs, []⟩
    | .ok _ => ⟨fetched.1, .ok (), saved.fs, ["Schema saved successfully."]⟩

end GraphqlSchema

namespace GraphqlSchema2

/-- The introspection query defined locally in `src/graphql_schema2.py`
lines 5-81 (a Python triple-quoted literal: the content starts with a
newline and preserves the source indentation). -/
def introspection_query : String :=
  String.intercalate "\n"
    [ ""
    , "    query IntrospectionQuery \x7b"
    , "        __schema \x7b"
    , "            queryType \x7b"
    , "                name"
    , "            \x7d"
    , "            mutationType \x7b"
    , "                name"
    , "            \x7d"
    , "            subscriptionType \x7b"
    , "                name"
    , "            \x7d"
    , "            types \x7b"
    , "                ...FullType"
    , "            \x7d"
    , "        \x7d"
    , "    \x7d"
    , ""
    , "    fragment FullType on __Type \x7b"
    , "        kind"
    , "        name"
    , "        description"
    , "        fields(includeDeprecated: true) \x7b"
    , "            name"
    , "            description"
    , "            args \x7b"
    , "                ...InputValue"
    , "            \x7d"
    , "            type \x7b"
    , "                ...TypeRef"
    , "            \x7d"
    , "            isDeprecated"
    , "            deprecationReason"
    , "        \x7d"
    , "        inputFields \x7b"
    , "            ...InputValue"
    , "        \x7d"
    , "        interfaces \x7b"
    , "            ...TypeRef"
    , "        \x7d"
    , "        enumValues(includeDeprecated: true) \x7b"
    , "            name"
    , "            description"
    , "            isDeprecated"
    , "            deprecationReason"
    , "        \x7d"
    , "        possibleTypes \x7b"
    , "            ...TypeRef"
    , "        \x7d"
    , "    \x7d"
    , ""
    , "    fragment InputValue on __InputValue \x7b"
    , "        name"
    , "        description"
    , "        type \x7b"
    , "            ...TypeRef"
    , "        \x7d"
    , "        defaultValue"
    , "    \x7d"
    , ""
    , "    fragment TypeRef on __Type \x7b"
    , "        kind"
    , "        name"
    , "        ofType \x7b"
    , "            kind"
    , "            name"
    , "            ofType \x7b"
    , "                kind"
    , "                name"
    , "                ofType \x7b"
    , "                    kind"
    , "                    name"
    , "                \x7d"
    , "            \x7d"
    , "        \x7d"
    , "    \x7d"
    , "" ]

/-- The second introspection query variant, `src/graphql_schema2.py`
lines 83-107.  Defined in the source but never used: `fetch_schema`
sends `introspection_query`, not this constant. -/
def introspection_query2 : String :=
  String.intercalate "\n"
    [ ""
    , "        query IntrospectionQuery \x7b"
    , "            __schema \x7b"
    , "                types \x7b"
    , "                    name"
    , "                    kind"
    , "                    fields \x7b"
    , "                        name"
    , "                        type \x7b"
    , "                            name"
    , "                            kind"
    , "                            ofType \x7b"
    , "                                name"
    , "                                kind"
    , "                                ofType \x7b"
    , "                                    name"
    , "                                    kind"
    , "                                \x7d"
    , "                            \x7d"
    , "                        \x7d"
    , "                    \x7d"
    , "                \x7d"
    , "            \x7d"
    , "        \x7d"
    , "    " ]

/-- The GraphQL endpoint URL, `src/graphql_schema2.py` line 110. -/
def endpoint_url : String := "https://your-graphql-endpoint.com/graphql"

/-- `fetch_schema`, `src/graphql_schema2.py` lines 112-122.  Same code
as in `graphql_schema.py`, but the `introspection_query` it sends is the
local literal above. -/
def fetch_schema (parse : String → Option Json) (endpoint_url : String)
    (response : HttpResponse) : List HttpRequest × Except PyError Json :=
  (([⟨"POST", endpoint_url, Json.obj [("query", Json.str introspection_query)]⟩] :
      List HttpRequest),
   match parse response.body with
   | none => .error .decodeError
   | some response_json =>
     match pyIn "errors" response_json with
     | .error e => .error e
     | .ok true =>
       match pyGetItem response_json "errors" with
       | .error e => .error e
       | .ok errs => .error (.exceptionErrors errs)
     | .ok false => pyGetItem response_json "data")

/-- `save_schema`, `src/graphql_schema2.py` lines 124-127: identical to
the first script's `save_schema`. -/
def save_schema (wb : WriteBehavior) (schema_json : String)
    (file_path : String) (fs : String → Option String) : SaveResult :=
  match wb with
  | .ok =>
    ⟨.ok (), fun p => if p = file_path then some schema_json else fs p, true⟩
  | .failAfter k =>
    ⟨.error .ioError,
     fun p => if p = file_path then some (schema_json.take k) else fs p, true⟩

/-- `main`, `src/graphql_schema2.py` lines 129-139: identical to the
first script's `main`. -/
def main (parse : String → Option Json) (print_schema : Json → String)
    (wb : WriteBehavior) (response : HttpResponse)
    (fs : String → Option String) : RunResult :=
  let fetched := fetch_schema parse endpoint_url response
  match fetched.2 with
  | .error e => ⟨fetched.1, .error e, fs, []⟩
  | .ok schema_data =>
    let schema_json := print_schema schema_data
    let saved := save_schema wb schema_json "schema.graphql" fs
    match saved.res with
    | .error e => ⟨fetched.1, .error e, saved.fs, []⟩
    | .ok _ => ⟨fetched.1, .ok (), saved.fs, ["Schema saved successfully."]⟩

end GraphqlSchema2

/-- The second components of the two scripts' `fetch_schema` results (the
value returned or the error raised) are the same function of the parsed
response: the scripts differ only in the query string placed in the
request body. -/
theorem fetch_snd_agree (parse : String → Option Json)
    (response : HttpResponse) :
    (GraphqlSchema2.fetch_schema parse GraphqlSchema2.endpoint_url response).2
      = (GraphqlSchema.fetch_schema parse GraphqlSchema.endpoint_url response).2 :=
  rfl

/-- C1: a parsed response whose `errors` key holds a non-empty array makes
`fetch_schema` raise the exception carrying that error collection
verbatim, `main` aborts with the same error, and the file system — in
particular any pre-existing content of `schema.graphql` — is unchanged. -/
theorem errors_abort_run (parse : String → Option Json)
    (print_schema : Json → String) (wb : WriteBehavior)
    (response : HttpResponse) (fs : String → Option String)
    (o : List (String × Json)) (errs : List Json)
    (hparse : parse response.body = some (Json.obj o))
    (herr : lookupField o "errors" = some (Json.arr errs))
    (hne : errs ≠ []) :
    (GraphqlSchema.fetch_schema parse GraphqlSchema.endpoint_url response).2
        = Except.error (PyError.exceptionErrors (Json.arr errs))
    ∧ (GraphqlSchema.main parse print_schema wb response fs).res
        = Except.error (PyError.exceptionErrors (Json.arr errs))
    ∧ (GraphqlSchema.main parse print_schema wb response fs).fs = fs := by
  have hfetch : (GraphqlSchema.fetch_schema parse GraphqlSchema.endpoint_url response).2
      = Except.error (PyError.exceptionErrors (Json.arr errs)) := by
    simp [GraphqlSchema.fetch_schema, hparse, pyIn, pyGetItem, herr]
  refine ⟨hfetch, ?_, ?_⟩ <;> simp [GraphqlSchema.main, hfetch]

/-- Witness for `errors_abort_run` at a concrete erroring response. -/
theorem errors_abort_run_witness :
    (fun (_ : String) => some (Json.obj [("errors", Json.arr [Json.str "boom"])]))
        (HttpResponse.mk 200 "r").body
      = some (Json.obj [("errors", Json.arr [Json.str "boom"])])
    ∧ lookupField [("errors", Json.arr [Json.str "boom"])] "errors"
        = some (Json.arr [Json.str "boom"])
    ∧ ([Json.str "boom"] : List Json) ≠ []
    ∧ (GraphqlSchema.main
        (fun _ => some (Json.obj [("errors", Json.arr [Json.str "boom"])]))
        (fun _ => "sdl") WriteBehavior.ok (HttpResponse.mk 200 "r")
        (fun _ => some "old")).fs = (fun _ => some "old") :=
  ⟨rfl, rfl, fun h => List.noConfusion h,
   (errors_abort_run
      (fun _ => some (Json.obj [("errors", Json.arr [Json.str "boom"])]))
      (fun _ => "sdl") WriteBehavior.ok (HttpResponse.mk 200 "r")
      (fun _ => some "old") [("errors", Json.arr [Json.str "boom"])]
      [Json.str "boom"] rfl rfl (fun h => List.noConfusion h)).2.2⟩

/-- C2 counterexample: at a response whose `errors` field is present but
an *empty* array (and which carries a `data` field), the claim predicts
that validation does not fail; in the code, `fetch_schema` raises the
exception carrying the empty error collection and `main` aborts without
writing. -/
theorem empty_errors_still_fail :
    (GraphqlSchema.fetch_schema
        (fun _ => some (Json.obj [("errors", Json.arr []), ("data", Json.null)]))
        GraphqlSchema.endpoint_url (HttpResponse.mk 200 "resp")).2
      = Except.error (PyError.exceptionErrors (Json.arr []))
    ∧ (GraphqlSchema.main
        (fun _ => some (Json.obj [("errors", Json.arr []), ("data", Json.null)]))
        (fun _ => "sdl") WriteBehavior.ok (HttpResponse.mk 200 "resp")
        (fun _ => none)).res
      = Except.error (PyError.exceptionErrors (Json.arr [])) :=
  ⟨rfl, rfl⟩

/-- C2 (amended): the validation step of `fetch_schema` (in both
scripts) fails if and only if the `errors` key is *present* in the
parsed response object — regardless of whether its value is empty. -/
theorem validation_fails_iff_errors_present (parse : String → Option Json)
    (response : HttpResponse) (o : List (String × Json))
    (hparse : parse response.body = some (Json.obj o)) :
    ((∃ v, (GraphqlSchema.fetch_schema parse GraphqlSchema.endpoint_url response).2
        = Except.error (PyError.exceptionErrors v))
      ↔ (lookupField o "errors").isSome = true)
    ∧ ((∃ v, (GraphqlSchema2.fetch_schema parse GraphqlSchema2.endpoint_url response).2
        = Except.error (PyError.exceptionErrors v))
      ↔ (lookupField o "errors").isSome = true) := by
  have key : ∀ v, ((GraphqlSchema.fetch_schema parse GraphqlSchema.endpoint_url response).2
      = Except.error (PyError.exceptionErrors v)) ↔
      ((match pyIn "errors" (Json.obj o) with
        | .error e => (Except.error e : Except PyError Json)
        | .ok true =>
          match pyGetItem (Json.obj o) "errors" with
          | .error e => .error e
          | .ok errs => .error (.exceptionErrors errs)
        | .ok false => pyGetItem (Json.obj o) "data")
        = Except.error (PyError.exceptionErrors v)) := by
    intro v
    simp [GraphqlSchema.fetch_schema, hparse]
  have main_iff : (∃ v, (GraphqlSchema.fetch_schema parse GraphqlSchema.endpoint_url response).2
      = Except.error (PyError.exceptionErrors v))
      ↔ (lookupField o "errors").isSome = true := by
    constructor
    · rintro ⟨v, hv⟩
      rw [key] at hv
      cases hl : lookupField o "errors" with
      | none =>
        rw [show pyIn "errors" (Json.obj o) = .ok false by simp [pyIn, hl]] at hv
        cases hd : lookupField o "data" with
        | none => simp [pyGetItem, hd] at hv
        | some d => simp [pyGetItem, hd] at hv
      | some v' => rfl
    · intro hsome
      cases hl : lookupField o "errors" with
      | none => rw [hl] at hsome; simp at hsome
      | some v =>
        exact ⟨v, by simp [GraphqlSchema.fetch_schema, hparse, pyIn, pyGetItem, hl]⟩
  exact ⟨main_iff, (fetch_snd_agree parse response ▸ main_iff : _)⟩

/-- Witness for `validation_fails_iff_errors_present` at a concrete
response with an empty `errors` array: validation fails there. -/
theorem validation_fails_iff_errors_present_witness :
    (fun (_ : String) => some (Json.obj [("errors", Json.arr [])]))
        (HttpResponse.mk 200 "b").body
      = some (Json.obj [("errors", Json.arr [])])
    ∧ (∃ v, (GraphqlSchema.fetch_schema
        (fun _ => some (Json.obj [("errors", Json.arr [])]))
        GraphqlSchema.endpoint_url (HttpResponse.mk 200 "b")).2
        = Except.error (PyError.exceptionErrors v)) :=
  ⟨rfl,
   ((validation_fails_iff_errors_present
      (fun _ => some (Json.obj [("errors", Json.arr [])]))
      (HttpResponse.mk 200 "b") [("errors", Json.arr [])] rfl).1).mpr rfl⟩

/-- C3: when the parsed response object has no `errors` key (so the
validation failure is not triggered) and carries a `data` field,
`fetch_schema` returns the value of the `data` field exactly as
received, in both scripts. -/
theorem fetch_returns_data_unchanged (parse : String → Option Json)
    (response : HttpResponse) (o : List (String × Json)) (v : Json)
    (hparse : parse response.body = some (Json.obj o))
    (hnoerr : lookupField o "errors" = none)
    (hdata : lookupField o "data" = some v) :
    (GraphqlSchema.fetch_schema parse GraphqlSchema.endpoint_url response).2
        = Except.ok v
    ∧ (GraphqlSchema2.fetch_schema parse GraphqlSchema2.endpoint_url response).2
        = Except.ok v := by
  have h1 : (GraphqlSchema.fetch_schema parse GraphqlSchema.endpoint_url response).2
      = Except.ok v := by
    simp [GraphqlSchema.fetch_schema, hparse, pyIn, pyGetItem, hnoerr, hdata]
  exact ⟨h1, (fetch_snd_agree parse response).trans h1⟩

/-- Witness for `fetch_returns_data_unchanged` at a concrete response. -/
theorem fetch_returns_data_unchanged_witness :
    (fun (_ : String) => some (Json.obj [("data", Json.str "payload")]))
        (HttpResponse.mk 200 "b").body
      = some (Json.obj [("data", Json.str "payload")])
    ∧ lookupField [("data", Json.str "payload")] "errors" = none
    ∧ lookupField [("data", Json.str "payload")] "data" = some (Json.str "payload")
    ∧ (GraphqlSchema.fetch_schema
        (fun _ => some (Json.obj [("data", Json.str "payload")]))
        GraphqlSchema.endpoint_url (HttpResponse.mk 200 "b")).2
      = Except.ok (Json.str "payload") :=
  ⟨rfl, rfl, rfl,
   (fetch_returns_data_unchanged
      (fun _ => some (Json.obj [("data", Json.str "payload")]))
      (HttpResponse.mk 200 "b") [("data", Json.str "payload")]
      (Json.str "payload") rfl rfl rfl).1⟩

/-- C5: when the response body is not valid JSON, `main` fails with the
decode error and the file system is untouched (the output file is never
opened). -/
theorem malformed_json_no_write (parse : String → Option Json)
    (print_schema : Json → String) (wb : WriteBehavior)
    (response : HttpResponse) (fs : String → Option String)
    (hparse : parse response.body = none) :
    (GraphqlSchema.main parse print_schema wb response fs).res
        = Except.error PyError.decodeError
    ∧ (GraphqlSchema.main parse print_schema wb response fs).fs = fs := by
  have h2 : (GraphqlSchema.fetch_schema parse GraphqlSchema.endpoint_url response).2
      = Except.error PyError.decodeError := by
    simp [GraphqlSchema.fetch_schema, hparse]
  constructor <;> simp [GraphqlSchema.main, h2]

/-- Witness for `malformed_json_no_write` at a concrete non-JSON body. -/
theorem malformed_json_no_write_witness :
    (fun (_ : String) => (none : Option Json)) (HttpResponse.mk 200 "<html>").body = none
    ∧ (GraphqlSchema.main (fun _ => none) (fun _ => "sdl") WriteBehavior.ok
        (HttpResponse.mk 200 "<html>") (fun _ => some "old")).fs
      = (fun _ => some "old") :=
  ⟨rfl,
   (malformed_json_no_write (fun _ => none) (fun _ => "sdl") WriteBehavior.ok
      (HttpResponse.mk 200 "<html>") (fun _ => some "old") rfl).2⟩

/-- C10: a parsed response object with neither an `errors` key nor a
`data` key makes `fetch_schema` (in both scripts) fail with the
key-lookup error for `data` — not the decode error and not the
schema-fetch exception — and `main` aborts with that error leaving the
file system unchanged. -/
theorem missing_keys_raise_key_lookup_error (parse : String → Option Json)
    (print_schema : Json → String) (wb : WriteBehavior)
    (response : HttpResponse) (fs : String → Option String)
    (o : List (String × Json))
    (hnoerr : lookupField o "errors" = none)
    (hnodata : lookupField o "data" = none)
    (hparse : parse response.body = some (Json.obj o)) :
    (GraphqlSchema.fetch_schema parse GraphqlSchema.endpoint_url response).2
        = Except.error (PyError.keyError "data")
    ∧ (GraphqlSchema2.fetch_schema parse GraphqlSchema2.endpoint_url response).2
        = Except.error (PyError.keyError "data")
    ∧ (GraphqlSchema.main parse print_schema wb response fs).res
        = Except.error (PyError.keyError "data")
    ∧ (GraphqlSchema.main parse print_schema wb response fs).fs = fs := by
  have h1 : (GraphqlSchema.fetch_schema parse GraphqlSchema.endpoint_url response).2
      = Except.error (PyError.keyError "data") := by
    simp [GraphqlSchema.fetch_schema, hparse, pyIn, pyGetItem, hnoerr, hnodata]
  refine ⟨h1, (fetch_snd_agree parse response).trans h1, ?_, ?_⟩ <;>
    simp [GraphqlSchema.main, h1]

/-- Witness for `missing_keys_raise_key_lookup_error` at the empty
response object. -/
theorem missing_keys_raise_key_lookup_error_witness :
    lookupField ([] : List (String × Json)) "errors" = none
    ∧ lookupField ([] : List (String × Json)) "data" = none
    ∧ (fun (_ : String) => some (Json.obj [])) (HttpResponse.mk 200 "b").body
        = some (Json.obj [])
    ∧ (GraphqlSchema.main (fun _ => some (Json.obj [])) (fun _ => "sdl")
        WriteBehavior.ok (HttpResponse.mk 200 "b") (fun _ => none)).res
      = Except.error (PyError.keyError "data") :=
  ⟨rfl, rfl, rfl,
   (missing_keys_raise_key_lookup_error (fun _ => some (Json.obj []))
      (fun _ => "sdl") WriteBehavior.ok (HttpResponse.mk 200 "b")
      (fun _ => none) [] rfl rfl rfl).2.2.1⟩

/-- C4: every invocation of `fetch_schema` issues exactly one HTTP POST
request to the given endpoint URL whose JSON body is exactly the object
with the single key `query` bound to the introspection query text (so no
retry is ever performed), and the response body is deserialized as JSON
(a body that fails to parse yields the decode error); `main` likewise
sends exactly that one request. -/
theorem fetch_sends_single_post (parse : String → Option Json) (ep : String)
    (response : HttpResponse) :
    (GraphqlSchema.fetch_schema parse ep response).1
      = [⟨"POST", ep, Json.obj [("query", Json.str GraphqlSchema.introspection_query)]⟩]
    ∧ (GraphqlSchema.fetch_schema parse ep response).1.length = 1
    ∧ (parse response.body = none →
        (GraphqlSchema.fetch_schema parse ep response).2
          = Except.error PyError.decodeError)
    ∧ (∀ (print_schema : Json → String) (wb : WriteBehavior)
          (fs : String → Option String),
        (GraphqlSchema.main parse print_schema wb response fs).requests
          = [⟨"POST", GraphqlSchema.endpoint_url,
              Json.obj [("query", Json.str GraphqlSchema.introspection_query)]⟩]) := by
  refine ⟨rfl, rfl, ?_, ?_⟩
  · intro h
    simp [GraphqlSchema.fetch_schema, h]
  · intro print_schema wb fs
    have hreq : (GraphqlSchema.fetch_schema parse GraphqlSchema.endpoint_url response).1
        = [⟨"POST", GraphqlSchema.endpoint_url,
            Json.obj [("query", Json.str GraphqlSchema.introspection_query)]⟩] := rfl
    cases hv : (GraphqlSchema.fetch_schema parse GraphqlSchema.endpoint_url response).2 with
    | error e =>
      simp only [GraphqlSchema.main]
      rw [hv]
      simp [hreq]
    | ok d =>
      simp only [GraphqlSchema.main]
      rw [hv]
      cases wb <;> simp [GraphqlSchema.save_schema, hreq]

/-- Witness for `fetch_sends_single_post` at a concrete invocation. -/
theorem fetch_sends_single_post_witness :
    (fun (_ : String) => (none : Option Json)) (HttpResponse.mk 200 "x").body = none
    ∧ (GraphqlSchema.fetch_schema (fun _ => none) GraphqlSchema.endpoint_url
        (HttpResponse.mk 200 "x")).2 = Except.error PyError.decodeError
    ∧ (GraphqlSchema.main (fun _ => none) (fun _ => "sdl") WriteBehavior.ok
        (HttpResponse.mk 200 "x") (fun _ => none)).requests
      = [⟨"POST", GraphqlSchema.endpoint_url,
          Json.obj [("query", Json.str GraphqlSchema.introspection_query)]⟩] :=
  ⟨rfl,
   (fetch_sends_single_post (fun _ => none) GraphqlSchema.endpoint_url
      (HttpResponse.mk 200 "x")).2.2.1 rfl,
   (fetch_sends_single_post (fun _ => none) GraphqlSchema.endpoint_url
      (HttpResponse.mk 200 "x")).2.2.2 (fun _ => "sdl") WriteBehavior.ok
      (fun _ => none)⟩

/-- C7: `save_schema` truncates and overwrites the file at `file_path`
(on success its content is exactly `schema_json`; on a write failing
after `k` characters its content is the written prefix, in particular
the empty string for `k = 0`), raises the I/O error exactly on failure,
leaves every other path untouched, and releases the file handle on every
exit path. -/
theorem save_schema_overwrites_and_releases (wb : WriteBehavior) (k : Nat)
    (schema_json file_path : String) (fs : String → Option String) :
    (GraphqlSchema.save_schema wb schema_json file_path fs).released = true
    ∧ (GraphqlSchema.save_schema WriteBehavior.ok schema_json file_path fs).res
        = Except.ok ()
    ∧ (GraphqlSchema.save_schema WriteBehavior.ok schema_json file_path fs).fs file_path
        = some schema_json
    ∧ (GraphqlSchema.save_schema (WriteBehavior.failAfter k) schema_json file_path fs).res
        = Except.error PyError.ioError
    ∧ (GraphqlSchema.save_schema (WriteBehavior.failAfter k) schema_json file_path fs).fs
        file_path = some (schema_json.take k)
    ∧ (∀ p, p ≠ file_path →
        (GraphqlSchema.save_schema wb schema_json file_path fs).fs p = fs p) := by
  refine ⟨?_, rfl, ?_, rfl, ?_, ?_⟩
  · cases wb <;> rfl
  · simp [GraphqlSchema.save_schema]
  · simp [GraphqlSchema.save_schema]
  · intro p hp
    cases wb <;> simp [GraphqlSchema.save_schema, hp]

/-- Witness for `save_schema_overwrites_and_releases` at a concrete
write over pre-existing content. -/
theorem save_schema_overwrites_and_releases_witness :
    (GraphqlSchema.save_schema WriteBehavior.ok "sdl" "schema.graphql"
        (fun _ => some "old")).fs "schema.graphql" = some "sdl"
    ∧ (GraphqlSchema.save_schema WriteBehavior.ok "sdl" "schema.graphql"
        (fun _ => some "old")).fs "elsewhere" = some "old"
    ∧ (GraphqlSchema.save_schema (WriteBehavior.failAfter 0) "sdl" "schema.graphql"
        (fun _ => some "old")).fs "schema.graphql" = some "" :=
  ⟨(save_schema_overwrites_and_releases WriteBehavior.ok 0 "sdl" "schema.graphql"
      (fun _ => some "old")).2.2.1,
   (save_schema_overwrites_and_releases WriteBehavior.ok 0 "sdl" "schema.graphql"
      (fun _ => some "old")).2.2.2.2.2 "elsewhere" (by decide),
   (save_schema_overwrites_and_releases WriteBehavior.ok 0 "sdl" "schema.graphql"
      (fun _ => some "old")).2.2.2.2.1⟩

/-- C8: the run is deterministic in the endpoint's response: two runs of
`main` that receive byte-identical response bodies (statuses and prior
file systems may differ), the first of which completes successfully,
both succeed and leave byte-identical content in `schema.graphql`. -/
theorem deterministic_output (parse : String → Option Json)
    (print_schema : Json → String) (wb : WriteBehavior)
    (r1 r2 : HttpResponse) (fs1 fs2 : String → Option String)
    (hbody : r1.body = r2.body)
    (h1 : (GraphqlSchema.main parse print_schema wb r1 fs1).res = Except.ok ()) :
    (GraphqlSchema.main parse print_schema wb r2 fs2).res = Except.ok ()
    ∧ (GraphqlSchema.main parse print_schema wb r1 fs1).fs "schema.graphql"
        = (GraphqlSchema.main parse print_schema wb r2 fs2).fs "schema.graphql" := by
  obtain ⟨s1, b1⟩ := r1
  obtain ⟨s2, b2⟩ := r2
  simp only [HttpResponse.mk.injEq] at hbody
  subst hbody
  cases hv : (GraphqlSchema.fetch_schema parse GraphqlSchema.endpoint_url
      (HttpResponse.mk s1 b1)).2 with
  | error e =>
    rw [show (GraphqlSchema.main parse print_schema wb (HttpResponse.mk s1 b1) fs1).res
        = Except.error e by simp [GraphqlSchema.main, hv]] at h1
    exact absurd h1 (by simp)
  | ok d =>
    have hv2 : (GraphqlSchema.fetch_schema parse GraphqlSchema.endpoint_url
        (HttpResponse.mk s2 b1)).2 = Except.ok d := hv
    cases wb with
    | failAfter k =>
      rw [show (GraphqlSchema.main parse print_schema (WriteBehavior.failAfter k)
          (HttpResponse.mk s1 b1) fs1).res = Except.error PyError.ioError by
        simp [GraphqlSchema.main, hv, GraphqlSchema.save_schema]] at h1
      exact absurd h1 (by simp)
    | ok =>
      constructor <;>
        simp [GraphqlSchema.main, hv, hv2, GraphqlSchema.save_schema]

/-- Witness for `deterministic_output` at a concrete successful run
repeated against a different prior file system and status code. -/
theorem deterministic_output_witness :
    (HttpResponse.mk 200 "b").body = (HttpResponse.mk 500 "b").body
    ∧ (GraphqlSchema.main (fun _ => some (Json.obj [("data", Json.null)]))
        (fun _ => "type Query") WriteBehavior.ok (HttpResponse.mk 200 "b")
        (fun _ => none)).res = Except.ok ()
    ∧ (GraphqlSchema.main (fun _ => some (Json.obj [("data", Json.null)]))
        (fun _ => "type Query") WriteBehavior.ok (HttpResponse.mk 200 "b")
        (fun _ => none)).fs "schema.graphql"
      = (GraphqlSchema.main (fun _ => some (Json.obj [("data", Json.null)]))
        (fun _ => "type Query") WriteBehavior.ok (HttpResponse.mk 500 "b")
        (fun _ => some "stale")).fs "schema.graphql" :=
  ⟨rfl, rfl,
   (deterministic_output (fun _ => some (Json.obj [("data", Json.null)]))
      (fun _ => "type Query") WriteBehavior.ok (HttpResponse.mk 200 "b")
      (HttpResponse.mk 500 "b") (fun _ => none) (fun _ => some "stale")
      rfl rfl).2⟩

/-- C9: neither script inspects the HTTP transport status code before
parsing the body as JSON: `main` is insensitive to the status code, and
a non-2xx response whose body is not valid JSON fails with the decode
error (not a distinct transport error), with no file written. -/
theorem status_code_never_inspected (parse : String → Option Json)
    (print_schema : Json → String) (wb : WriteBehavior)
    (s : Nat) (body : String) (fs : String → Option String)
    (hstatus : ¬ (200 ≤ s ∧ s ≤ 299)) (hparse : parse body = none) :
    (GraphqlSchema.main parse print_schema wb (HttpResponse.mk s body) fs).res
        = Except.error PyError.decodeError
    ∧ (GraphqlSchema.main parse print_schema wb (HttpResponse.mk s body) fs).fs = fs
    ∧ (∀ s2 : Nat, GraphqlSchema.main parse print_schema wb (HttpResponse.mk s2 body) fs
        = GraphqlSchema.main parse print_schema wb (HttpResponse.mk s body) fs)
    ∧ (GraphqlSchema2.main parse print_schema wb (HttpResponse.mk s body) fs).res
        = Except.error PyError.decodeError
    ∧ (∀ s2 : Nat, GraphqlSchema2.main parse print_schema wb (HttpResponse.mk s2 body) fs
        = GraphqlSchema2.main parse print_schema wb (HttpResponse.mk s body) fs) := by
  have h2 : (GraphqlSchema.fetch_schema parse GraphqlSchema.endpoint_url
      (HttpResponse.mk s body)).2 = Except.error PyError.decodeError := by
    simp [GraphqlSchema.fetch_schema, hparse]
  have h2b : (GraphqlSchema2.fetch_schema parse GraphqlSchema2.endpoint_url
      (HttpResponse.mk s body)).2 = Except.error PyError.decodeError :=
    (fetch_snd_agree parse (HttpResponse.mk s body)).trans h2
  refine ⟨?_, ?_, fun s2 => rfl, ?_, fun s2 => rfl⟩
  · simp [GraphqlSchema.main, h2]
  · simp [GraphqlSchema.main, h2]
  · simp [GraphqlSchema2.main, h2b]

/-- Witness for `status_code_never_inspected` at status 500 with an
HTML error body that fails to parse as JSON. -/
theorem status_code_never_inspected_witness :
    (¬ (200 ≤ 500 ∧ 500 ≤ 299))
    ∧ (fun (_ : String) => (none : Option Json)) "<html>Server Error</html>" = none
    ∧ (GraphqlSchema.main (fun _ => none) (fun _ => "sdl") WriteBehavior.ok
        (HttpResponse.mk 500 "<html>Server Error</html>") (fun _ => none)).res
      = Except.error PyError.decodeError :=
  ⟨by decide, rfl,
   (status_code_never_inspected (fun _ => none) (fun _ => "sdl") WriteBehavior.ok
      500 "<html>Server Error</html>" (fun _ => none) (by decide) rfl).1⟩

set_option maxRecDepth 16384 in
/-- C6 counterexample: at a concrete run the two scripts' `main`
functions do not send the same request — the JSON bodies differ in the
introspection query string (`graphql_schema.py` sends the library's
introspection document, `graphql_schema2.py` its own local literal). -/
theorem scripts_send_different_requests :
    (GraphqlSchema.main (fun _ => none) (fun _ => "") WriteBehavior.ok
        (HttpResponse.mk 200 "") (fun _ => none)).requests
      ≠ (GraphqlSchema2.main (fun _ => none) (fun _ => "") WriteBehavior.ok
        (HttpResponse.mk 200 "") (fun _ => none)).requests := by
  intro h
  have h1 : ([⟨"POST", GraphqlSchema.endpoint_url,
      Json.obj [("query", Json.str GraphqlSchema.introspection_query)]⟩] :
        List HttpRequest)
      = [⟨"POST", GraphqlSchema2.endpoint_url,
      Json.obj [("query", Json.str GraphqlSchema2.introspection_query)]⟩] := h
  have h2 := congrArg (fun l => (l.map HttpRequest.jsonBody)) h1
  simp only [List.map_cons, List.map_nil, List.cons.injEq, and_true,
    Json.obj.injEq, Json.str.injEq, Prod.mk.injEq, true_and] at h2
  exact absurd h2 (by decide)

/-- C6 (amended): the two scripts are semantically equivalent except for
the introspection query text placed in the request body: for every
endpoint response their `main` functions raise the same error or both
succeed, produce the same file-system contents (same output file content
at the same path), print the same output, and send the same number of
requests with the same method to the same URL. -/
theorem scripts_equivalent_modulo_query (parse : String → Option Json)
    (print_schema : Json → String) (wb : WriteBehavior)
    (response : HttpResponse) (fs : String → Option String) :
    (GraphqlSchema.main parse print_schema wb response fs).res
      = (GraphqlSchema2.main parse print_schema wb response fs).res
    ∧ (GraphqlSchema.main parse print_schema wb response fs).fs
      = (GraphqlSchema2.main parse print_schema wb response fs).fs
    ∧ (GraphqlSchema.main parse print_schema wb response fs).output
      = (GraphqlSchema2.main parse print_schema wb response fs).output
    ∧ (GraphqlSchema.main parse print_schema wb response fs).requests.length
      = (GraphqlSchema2.main parse print_schema wb response fs).requests.length
    ∧ (GraphqlSchema.main parse print_schema wb response fs).requests.map HttpRequest.method
      = (GraphqlSchema2.main parse print_schema wb response fs).requests.map HttpRequest.method
    ∧ (GraphqlSchema.main parse print_schema wb response fs).requests.map HttpRequest.url
      = (GraphqlSchema2.main parse print_schema wb response fs).requests.map HttpRequest.url := by
  have hsnd : (GraphqlSchema2.fetch_schema parse GraphqlSchema2.endpoint_url response).2
      = (GraphqlSchema.fetch_schema parse GraphqlSchema.endpoint_url response).2 :=
    fetch_snd_agree parse response
  cases hv : (GraphqlSchema.fetch_schema parse GraphqlSchema.endpoint_url response).2 with
  | error e =>
    have hv2 := hsnd.trans hv
    simp only [GraphqlSchema.main, GraphqlSchema2.main]
    rw [hv, hv2]
    simp [GraphqlSchema.fetch_schema, GraphqlSchema2.fetch_schema,
      GraphqlSchema.endpoint_url, GraphqlSchema2.endpoint_url]
  | ok d =>
    have hv2 := hsnd.trans hv
    simp only [GraphqlSchema.main, GraphqlSchema2.main]
    rw [hv, hv2]
    cases wb <;>
      simp [GraphqlSchema.fetch_schema, GraphqlSchema2.fetch_schema,
        GraphqlSchema.save_schema, GraphqlSchema2.save_schema,
        GraphqlSchema.endpoint_url, GraphqlSchema2.endpoint_url]
